import Mathlib

/-!
Shallow embedding of the CIRO tokenomics engine
(`src/src/tokenomics_engine.py`) over the rationals.

Python floats are modelled as `ℚ`.  Two quantities the engine obtains from
external capabilities are passed in explicitly:

* `eps` — the value drawn from the normal random source in `step`
  (`np.random.normal(0, volatility/12)`); its distribution parameter
  (the volatility estimate) does not constrain the drawn value, so the
  draw itself is the external input.
* `seasonal` — the seasonal multiplier `1 + 0.2*sin(2π*(month mod 12)/12)`
  used by `get_revenue`; it is a fixed transcendental function of the
  month (e.g. exactly `11/10` at month 1, exactly `1` at months that are
  multiples of 6), supplied here as an input so the engine stays rational.

All other computations are translated literally from the source.
-/

/-- `CIROParameters` from the source.  The string-keyed dictionaries
`inflation_schedule`, `burn_schedule` and `revenue_targets` are flattened
into one field per key; default values are the source defaults. -/
structure CIROParameters where
  total_supply : ℚ := 1000000000
  initial_circulating : ℚ := 50000000
  initial_price : ℚ := 8/100
  public_launch_price : ℚ := 50/100
  infl_year_1 : ℚ := 8/100
  infl_year_2 : ℚ := 5/100
  infl_year_3 : ℚ := 3/100
  infl_year_4 : ℚ := 1/100
  infl_year_5_plus : ℚ := 1/100
  burn_month_1_12 : ℚ := 30/100
  burn_month_13_36 : ℚ := 50/100
  burn_month_37_60 : ℚ := 70/100
  burn_month_61_plus : ℚ := 80/100
  security_floor_usd : ℚ := 2000000
  guard_band_inflation : ℚ := 3/100
  fee_coverage_threshold : ℚ := 60/100
  max_governance_increase : ℚ := 10/100
  max_governance_decrease : ℚ := 15/100
  epoch_length_days : ℕ := 30
  pol_target_usd : ℚ := 4000000
  max_burn_slippage : ℚ := 1/100
  min_burn_amount : ℚ := 100000
  rev_year_1 : ℚ := 500000
  rev_year_2 : ℚ := 2500000
  rev_year_3 : ℚ := 10000000
  rev_year_4 : ℚ := 25000000
  rev_year_5 : ℚ := 50000000
deriving DecidableEq

/-- A record of `history['governance_events']`:
`{'month': ..., 'change': ..., 'new_rate': ...}`. -/
structure GovEvent where
  month : ℚ
  change : ℚ
  new_rate : ℚ
deriving DecidableEq

/-- The `self.history` dictionary: nine numeric series plus the
governance-event series. -/
structure History where
  month : List ℚ := []
  price : List ℚ := []
  circulating_supply : List ℚ := []
  monthly_inflation : List ℚ := []
  monthly_burns : List ℚ := []
  net_supply_change : List ℚ := []
  market_cap : List ℚ := []
  revenue : List ℚ := []
  security_budget : List ℚ := []
  governance_events : List GovEvent := []
deriving DecidableEq

/-- The mutable state of `CIROTokenomicsEngine` (the fields set in
`reset_state`, plus the parameters the engine stores at construction). -/
structure EngineState where
  params : CIROParameters
  month : ℕ
  current_supply : ℚ
  circulating_supply : ℚ
  price : ℚ
  total_burned : ℚ
  treasury_usd : ℚ
  pol_size : ℚ
  security_budget_annual : ℚ
  last_governance_change : ℕ
  current_inflation_rate : ℚ
  current_burn_rate : ℚ
  history : History
deriving DecidableEq

/-- `reset_state`: initial conditions. -/
def reset_state (p : CIROParameters) : EngineState :=
  { params := p
    month := 0
    current_supply := p.total_supply
    circulating_supply := p.initial_circulating
    price := p.initial_price
    total_burned := 0
    treasury_usd := 0
    pol_size := 0
    security_budget_annual := p.security_floor_usd
    last_governance_change := 0
    current_inflation_rate := p.infl_year_1
    current_burn_rate := p.burn_month_1_12
    history := {} }

/-- The schedule lookup inside `get_inflation_rate`:
`year = month // 12 + 1`; years 1,2,3 map to their entries and every other
year maps to the `year_4` entry (the `year_5+` entry is never read). -/
def inflationScheduleRate (p : CIROParameters) (month : ℕ) : ℚ :=
  let year := month / 12 + 1
  if year = 1 then p.infl_year_1
  else if year = 2 then p.infl_year_2
  else if year = 3 then p.infl_year_3
  else p.infl_year_4

/-- `get_inflation_rate`: returns the schedule rate and also writes it back
into `current_inflation_rate` (the method mutates `self`). -/
def get_inflation_rate (s : EngineState) : ℚ × EngineState :=
  let r := inflationScheduleRate s.params s.month
  (r, { s with current_inflation_rate := r })

/-- `get_burn_rate`: month-bucket lookup into the burn schedule. -/
def get_burn_rate (s : EngineState) : ℚ :=
  if s.month ≤ 12 then s.params.burn_month_1_12
  else if s.month ≤ 36 then s.params.burn_month_13_36
  else if s.month ≤ 60 then s.params.burn_month_37_60
  else s.params.burn_month_61_plus

/-- The annual revenue target used by `get_revenue`: table lookup for years
1..5, `year_5 * 1.3^(year-5)` afterwards. -/
def annual_revenue_target (p : CIROParameters) (year : ℕ) : ℚ :=
  if year = 1 then p.rev_year_1
  else if year = 2 then p.rev_year_2
  else if year = 3 then p.rev_year_3
  else if year = 4 then p.rev_year_4
  else if year = 5 then p.rev_year_5
  else p.rev_year_5 * (13/10 : ℚ) ^ (year - 5)

/-- `get_revenue`: `annual_target / 12 * seasonal_factor`; the transcendental
seasonal factor `1 + 0.2*sin(2π*(month mod 12)/12)` is passed in as
`seasonal` (see the module comment). -/
def get_revenue (s : EngineState) (seasonal : ℚ) : ℚ :=
  let year := s.month / 12 + 1
  annual_revenue_target s.params year / 12 * seasonal

/-- `calculate_security_budget_needed`: `max(floor, market_cap * 0.005)`. -/
def calculate_security_budget_needed (s : EngineState) : ℚ :=
  max s.params.security_floor_usd (s.circulating_supply * s.price * (5/1000))

/-- `check_security_guard_band`: true iff annual fee coverage is below the
threshold fraction of the required security budget. -/
def check_security_guard_band (s : EngineState) (monthly_revenue : ℚ) : Bool :=
  decide (monthly_revenue * 12 <
    calculate_security_budget_needed s * s.params.fee_coverage_threshold)

/-- `simulate_governance_change`: reject when `abs(delta)` exceeds
`max_governance_increase`, or when `delta < -max_governance_decrease`;
otherwise apply `max(0, rate + delta)`, record the month and log the event.
Returns the accept flag together with the (possibly updated) state. -/
def simulate_governance_change (s : EngineState)
    (proposed_inflation_change : ℚ) : Bool × EngineState :=
  if abs proposed_inflation_change > s.params.max_governance_increase then
    (false, s)
  else if proposed_inflation_change < -s.params.max_governance_decrease then
    (false, s)
  else
    let new_rate := s.current_inflation_rate + proposed_inflation_change
    let applied := max 0 new_rate
    let ev : GovEvent :=
      { month := (s.month : ℚ), change := proposed_inflation_change
        new_rate := applied }
    (true,
      { s with
          current_inflation_rate := applied
          last_governance_change := s.month
          history :=
            { s.history with
                governance_events := s.history.governance_events ++ [ev] } })

/-- `execute_burn_auction`: burn target from the burn schedule; below the
minimum threshold it is a no-op returning `(0, 0)`; otherwise burn with
slippage protection, update supply and cumulative burn, and top up POL.
Returns `(tokens_burned, usd_spent, new state)`. -/
def execute_burn_auction (s : EngineState) (revenue_usd : ℚ) :
    ℚ × ℚ × EngineState :=
  let burn_target_usd := revenue_usd * get_burn_rate s
  if burn_target_usd < s.params.min_burn_amount then
    (0, 0, s)
  else
    let tokens_before_slippage := burn_target_usd / s.price
    let slippage_factor :=
      min s.params.max_burn_slippage
        (tokens_before_slippage / s.circulating_supply)
    let actual_tokens_burned := tokens_before_slippage * (1 - slippage_factor)
    let actual_usd_spent :=
      actual_tokens_burned * s.price * (1 + slippage_factor)
    let s1 :=
      { s with
          circulating_supply := s.circulating_supply - actual_tokens_burned
          total_burned := s.total_burned + actual_tokens_burned }
    let s2 :=
      if s1.pol_size < s1.params.pol_target_usd then
        { s1 with
            pol_size := s1.pol_size +
              min (burn_target_usd * (1/10))
                (s1.params.pol_target_usd - s1.pol_size) }
      else s1
    (actual_tokens_burned, actual_usd_spent, s2)

/-- A `step()` return value:
`{month, price, circulating, minted, burned, total_burned, revenue, market_cap}`. -/
structure StepSnapshot where
  month : ℕ
  price : ℚ
  circulating : ℚ
  minted : ℚ
  burned : ℚ
  total_burned : ℚ
  revenue : ℚ
  market_cap : ℚ
deriving DecidableEq

/-- `step()`: one monthly transition.  `seasonal` is the seasonal factor
inside `get_revenue` for the new month and `eps` is the value drawn from the
external normal random source for the price update. -/
def step (s0 : EngineState) (seasonal eps : ℚ) : StepSnapshot × EngineState :=
  let s1 : EngineState := { s0 with month := s0.month + 1 }
  let monthly_revenue := get_revenue s1 seasonal
  let ir := get_inflation_rate s1
  let schedule_rate := ir.1
  let s2 := ir.2
  let guard_band_triggered := check_security_guard_band s2 monthly_revenue
  let inflation_rate :=
    if guard_band_triggered then
      max schedule_rate s2.params.guard_band_inflation
    else schedule_rate
  let monthly_inflation_rate := inflation_rate / 12
  let new_tokens := s2.circulating_supply * monthly_inflation_rate
  let s3 :=
    { s2 with circulating_supply := s2.circulating_supply + new_tokens }
  let ba := execute_burn_auction s3 monthly_revenue
  let tokens_burned := ba.1
  let s4 := ba.2.2
  let supply_pressure := (new_tokens - tokens_burned) / s4.circulating_supply
  let revenue_support := monthly_revenue / (s4.circulating_supply * s4.price)
  let price_change := (revenue_support - supply_pressure) * (1 + eps)
  let s5 := { s4 with price := max (1/100) (s4.price * (1 + price_change)) }
  let market_cap := s5.circulating_supply * s5.price
  let net_supply_change := new_tokens - tokens_burned
  let s6 :=
    { s5 with security_budget_annual := calculate_security_budget_needed s5 }
  let h := s6.history
  let s7 :=
    { s6 with
        history :=
          { h with
              month := h.month ++ [(s6.month : ℚ)]
              price := h.price ++ [s6.price]
              circulating_supply := h.circulating_supply ++ [s6.circulating_supply]
              monthly_inflation := h.monthly_inflation ++ [new_tokens]
              monthly_burns := h.monthly_burns ++ [tokens_burned]
              net_supply_change := h.net_supply_change ++ [net_supply_change]
              market_cap := h.market_cap ++ [market_cap]
              revenue := h.revenue ++ [monthly_revenue]
              security_budget := h.security_budget ++ [s6.security_budget_annual] } }
  ({ month := s7.month
     price := s7.price
     circulating := s7.circulating_supply
     minted := new_tokens
     burned := tokens_burned
     total_burned := s7.total_burned
     revenue := monthly_revenue
     market_cap := market_cap }, s7)

/-- Repeated stepping from a state, one `(seasonal, eps)` input pair per
month, collecting the returned snapshots in call order. -/
def run_steps (s : EngineState) : List (ℚ × ℚ) → List StepSnapshot × EngineState
  | [] => ([], s)
  | (se, ep) :: rest =>
    let r := step s se ep
    let rr := run_steps r.2 rest
    (r.1 :: rr.1, rr.2)

/-- `run_simulation`: reset the state, then step once per input pair. -/
def run_simulation (p : CIROParameters) (inputs : List (ℚ × ℚ)) :
    List StepSnapshot × EngineState :=
  run_steps (reset_state p) inputs

/-- The effective inflation rate a `step()` call uses for minting: the
schedule rate, raised to `guard_band_inflation` when the security guard-band
triggers.  Extracted verbatim from the first half of `step()` (the state it
passes to `check_security_guard_band` is the state after the month increment
and after `get_inflation_rate` wrote `current_inflation_rate` back). -/
def effective_inflation_rate (s0 : EngineState) (seasonal : ℚ) : ℚ :=
  let s1 : EngineState := { s0 with month := s0.month + 1 }
  let monthly_revenue := get_revenue s1 seasonal
  let ir := get_inflation_rate s1
  if check_security_guard_band ir.2 monthly_revenue then
    max ir.1 ir.2.params.guard_band_inflation
  else ir.1

/-- A parameter set that differs only in the `year_5+` inflation entry. -/
def with_infl_year_5_plus (p : CIROParameters) (v : ℚ) : CIROParameters :=
  { p with infl_year_5_plus := v }

/-- An engine state whose stored parameters differ only in the `year_5+`
inflation entry. -/
def engine_with_y5 (s : EngineState) (v : ℚ) : EngineState :=
  { s with params := with_infl_year_5_plus s.params v }

/-! ## Helper lemmas about `execute_burn_auction` and `step` -/

/-- The burn auction decrements the circulating supply by exactly the number
of tokens it reports as burned (in both the skip and the burn branch). -/
theorem execute_burn_auction_circ (s : EngineState) (r : ℚ) :
    (execute_burn_auction s r).2.2.circulating_supply
      = s.circulating_supply - (execute_burn_auction s r).1 := by
  simp only [execute_burn_auction]
  split_ifs <;> simp

/-- The burn auction increments `total_burned` by exactly the number of
tokens it reports as burned. -/
theorem execute_burn_auction_total (s : EngineState) (r : ℚ) :
    (execute_burn_auction s r).2.2.total_burned
      = s.total_burned + (execute_burn_auction s r).1 := by
  simp only [execute_burn_auction]
  split_ifs <;> simp

/-- If the burn target is strictly below the value of the circulating
supply at the current price, the burn auction burns strictly fewer tokens
than the circulating supply. -/
theorem execute_burn_auction_tokens_lt (s : EngineState) (r : ℚ)
    (hp : 0 < s.price) (hc : 0 < s.circulating_supply)
    (hsl : 0 ≤ s.params.max_burn_slippage)
    (hmin : 0 ≤ s.params.min_burn_amount)
    (hb : r * get_burn_rate s < s.price * s.circulating_supply) :
    (execute_burn_auction s r).1 < s.circulating_supply := by
  simp only [execute_burn_auction]
  split_ifs with hskip hpol
  · simpa using hc
  all_goals
    dsimp only
    have hbt : (0 : ℚ) ≤ r * get_burn_rate s := le_trans hmin (not_lt.mp hskip)
    have ht : (0 : ℚ) ≤ r * get_burn_rate s / s.price := div_nonneg hbt hp.le
    have htlt : r * get_burn_rate s / s.price < s.circulating_supply :=
      (div_lt_iff₀ hp).mpr (by linarith [hb])
    have hsl0 : (0 : ℚ) ≤ min s.params.max_burn_slippage
        (r * get_burn_rate s / s.price / s.circulating_supply) :=
      le_min hsl (div_nonneg ht hc.le)
    nlinarith [mul_nonneg ht hsl0]

/-! ## Claim theorems -/

/-- C1: the spec's governance-bounds scenario evaluated on the code with
default parameters in year 1.  A delta of `+0.10` is accepted and `+0.11`
and `-0.16` are rejected, as the claim states; but a delta of `-0.15` is
REJECTED by the code (its first check rejects whenever `abs(delta)` exceeds
`max_governance_increase = 0.10`, so the dedicated `-0.15` bound is dead
code), while the claim says it is accepted. -/
theorem c1_governance_bounds_eval :
    (simulate_governance_change (reset_state {}) (10/100)).1 = true
      ∧ (simulate_governance_change (reset_state {}) (11/100)).1 = false
      ∧ (simulate_governance_change (reset_state {}) (-(16/100))).1 = false
      ∧ (simulate_governance_change (reset_state {}) (-(15/100))).1 = false := by
  refine ⟨?_, ?_, ?_, ?_⟩ <;>
    norm_num [simulate_governance_change, reset_state, abs_of_pos, abs_of_neg]

/-- C2: for every `step()` call, the circulating supply afterwards equals
the supply beforehand plus the snapshot's `minted` minus the snapshot's
`burned`, for every state and every seasonal factor and random draw. -/
theorem c2_supply_conservation (s : EngineState) (seasonal eps : ℚ) :
    (step s seasonal eps).2.circulating_supply
      = s.circulating_supply + (step s seasonal eps).1.minted
          - (step s seasonal eps).1.burned := by
  simp only [step]
  rw [execute_burn_auction_circ]
  simp [get_inflation_rate]

/-- C3: after every `step()` call, whatever the seasonal factor and whatever
value the random source draws, the engine's price is at least `0.01`. -/
theorem c3_price_floor (s : EngineState) (seasonal eps : ℚ) :
    (1 : ℚ)/100 ≤ (step s seasonal eps).2.price := by
  simp only [step]
  exact le_max_left _ _

/-- C4: when the burn target `revenue_usd * burn_rate(month)` is below
`min_burn_amount`, `execute_burn_auction` returns `(0, 0)` and leaves the
whole state (in particular `circulating_supply`, `total_burned` and
`pol_size`) unchanged. -/
theorem c4_burn_skip (s : EngineState) (revenue_usd : ℚ)
    (h : revenue_usd * get_burn_rate s < s.params.min_burn_amount) :
    execute_burn_auction s revenue_usd = (0, 0, s) := by
  simp only [execute_burn_auction]
  rw [if_pos h]

/-- Witness for C4: with default parameters in the reset state and zero
revenue, the burn target `0 * 0.30 = 0` is below the `100000` minimum, and
the auction is a no-op. -/
theorem c4_burn_skip_witness :
    0 * get_burn_rate (reset_state {}) < (reset_state {}).params.min_burn_amount
      ∧ execute_burn_auction (reset_state {}) 0 = (0, 0, reset_state {}) :=
  ⟨by norm_num [get_burn_rate, reset_state],
   c4_burn_skip (reset_state {}) 0 (by norm_num [get_burn_rate, reset_state])⟩

/-- C5: when the burn target `bt = revenue_usd * burn_rate(month)` reaches
`min_burn_amount`, the auction returns exactly
`(t*(1-sl), t*(1-sl)*price*(1+sl))` with `t = bt/price` and
`sl = min(max_burn_slippage, t/circulating_supply)`, decrements
`circulating_supply` by `t*(1-sl)` and increments `total_burned` by
`t*(1-sl)`. -/
theorem c5_burn_executed (s : EngineState) (revenue_usd : ℚ)
    (h : s.params.min_burn_amount ≤ revenue_usd * get_burn_rate s) :
    (execute_burn_auction s revenue_usd).1
        = revenue_usd * get_burn_rate s / s.price *
            (1 - min s.params.max_burn_slippage
              (revenue_usd * get_burn_rate s / s.price / s.circulating_supply))
      ∧ (execute_burn_auction s revenue_usd).2.1
          = revenue_usd * get_burn_rate s / s.price *
              (1 - min s.params.max_burn_slippage
                (revenue_usd * get_burn_rate s / s.price / s.circulating_supply))
              * s.price *
              (1 + min s.params.max_burn_slippage
                (revenue_usd * get_burn_rate s / s.price / s.circulating_supply))
      ∧ (execute_burn_auction s revenue_usd).2.2.circulating_supply
          = s.circulating_supply -
              revenue_usd * get_burn_rate s / s.price *
                (1 - min s.params.max_burn_slippage
                  (revenue_usd * get_burn_rate s / s.price / s.circulating_supply))
      ∧ (execute_burn_auction s revenue_usd).2.2.total_burned
          = s.total_burned +
              revenue_usd * get_burn_rate s / s.price *
                (1 - min s.params.max_burn_slippage
                  (revenue_usd * get_burn_rate s / s.price / s.circulating_supply)) := by
  have h' : ¬ revenue_usd * get_burn_rate s < s.params.min_burn_amount :=
    not_lt.mpr h
  simp only [execute_burn_auction]
  rw [if_neg h']
  refine ⟨rfl, rfl, ?_, ?_⟩ <;> split_ifs <;> rfl

/-- Witness for C5: default parameters, reset state, revenue `1000000`; the
burn target `300000` reaches the `100000` minimum, and the auction returns
the claimed values. -/
theorem c5_burn_executed_witness :
    (reset_state {}).params.min_burn_amount
        ≤ 1000000 * get_burn_rate (reset_state {})
      ∧ ((execute_burn_auction (reset_state {}) 1000000).1
          = 1000000 * get_burn_rate (reset_state {}) / (reset_state {}).price *
              (1 - min (reset_state {}).params.max_burn_slippage
                (1000000 * get_burn_rate (reset_state {}) / (reset_state {}).price
                  / (reset_state {}).circulating_supply))
        ∧ (execute_burn_auction (reset_state {}) 1000000).2.1
            = 1000000 * get_burn_rate (reset_state {}) / (reset_state {}).price *
                (1 - min (reset_state {}).params.max_burn_slippage
                  (1000000 * get_burn_rate (reset_state {}) / (reset_state {}).price
                    / (reset_state {}).circulating_supply))
                * (reset_state {}).price *
                (1 + min (reset_state {}).params.max_burn_slippage
                  (1000000 * get_burn_rate (reset_state {}) / (reset_state {}).price
                    / (reset_state {}).circulating_supply))
        ∧ (execute_burn_auction (reset_state {}) 1000000).2.2.circulating_supply
            = (reset_state {}).circulating_supply -
                1000000 * get_burn_rate (reset_state {}) / (reset_state {}).price *
                  (1 - min (reset_state {}).params.max_burn_slippage
                    (1000000 * get_burn_rate (reset_state {}) / (reset_state {}).price
                      / (reset_state {}).circulating_supply))
        ∧ (execute_burn_auction (reset_state {}) 1000000).2.2.total_burned
            = (reset_state {}).total_burned +
                1000000 * get_burn_rate (reset_state {}) / (reset_state {}).price *
                  (1 - min (reset_state {}).params.max_burn_slippage
                    (1000000 * get_burn_rate (reset_state {}) / (reset_state {}).price
                      / (reset_state {}).circulating_supply))) :=
  ⟨by norm_num [get_burn_rate, reset_state],
   c5_burn_executed (reset_state {}) 1000000
     (by norm_num [get_burn_rate, reset_state])⟩

/-- C6: the minted amount of every `step()` is computed from the effective
inflation rate; that rate equals `max(schedule_rate, guard_band_inflation)`
when the guard-band trigger `monthly_revenue*12 < required_security *
fee_coverage_threshold` holds and the schedule rate otherwise, and it is
never below the schedule rate. -/
theorem c6_guard_band_rate (s : EngineState) (seasonal eps : ℚ) :
    (step s seasonal eps).1.minted
        = s.circulating_supply * (effective_inflation_rate s seasonal / 12)
      ∧ effective_inflation_rate s seasonal
          = (if check_security_guard_band
                { s with
                    month := s.month + 1
                    current_inflation_rate :=
                      inflationScheduleRate s.params (s.month + 1) }
                (get_revenue { s with month := s.month + 1 } seasonal) then
              max (inflationScheduleRate s.params (s.month + 1))
                s.params.guard_band_inflation
            else inflationScheduleRate s.params (s.month + 1))
      ∧ inflationScheduleRate s.params (s.month + 1)
          ≤ effective_inflation_rate s seasonal := by
  refine ⟨rfl, rfl, ?_⟩
  simp only [effective_inflation_rate, get_inflation_rate]
  split
  · exact le_max_left _ _
  · exact le_rfl

/-- C7: whenever `simulate_governance_change` rejects a proposal, the engine
state — in particular `current_inflation_rate`, `last_governance_change`
and the `governance_events` history — is exactly what it was before. -/
theorem c7_rejection_no_mutation (s : EngineState) (delta : ℚ)
    (h : (simulate_governance_change s delta).1 = false) :
    (simulate_governance_change s delta).2 = s := by
  simp only [simulate_governance_change] at h ⊢
  split_ifs at h ⊢ <;> simp_all

/-- Witness for C7: with default parameters a proposal of `+0.20` is
rejected and the state is untouched. -/
theorem c7_rejection_no_mutation_witness :
    (simulate_governance_change (reset_state {}) (20/100)).2 = reset_state {} :=
  c7_rejection_no_mutation (reset_state {}) (20/100)
    (by norm_num [simulate_governance_change, reset_state, abs_of_pos])

/-- C10: when the burn executes (`min_burn_amount ≤ burn_target_usd`), the
reported `usd_spent` equals `burn_target_usd * (1 - slippage^2)` and hence
never exceeds `burn_target_usd`, and the reported `tokens_burned` is
non-negative — given positive price and supply, non-negative revenue and
minimum-burn threshold, and slippage cap within `[0, 1]`. -/
theorem c10_usd_spent_bounded (s : EngineState) (revenue_usd : ℚ)
    (hp : 0 < s.price) (hc : 0 < s.circulating_supply)
    (hr : 0 ≤ revenue_usd)
    (hmin : 0 ≤ s.params.min_burn_amount)
    (hs0 : 0 ≤ s.params.max_burn_slippage)
    (hs1 : s.params.max_burn_slippage ≤ 1)
    (hb : s.params.min_burn_amount ≤ revenue_usd * get_burn_rate s) :
    (execute_burn_auction s revenue_usd).2.1
        = revenue_usd * get_burn_rate s *
            (1 - (min s.params.max_burn_slippage
              (revenue_usd * get_burn_rate s / s.price
                / s.circulating_supply))^2)
      ∧ (execute_burn_auction s revenue_usd).2.1
          ≤ revenue_usd * get_burn_rate s
      ∧ 0 ≤ (execute_burn_auction s revenue_usd).1 := by
  have h' : ¬ revenue_usd * get_burn_rate s < s.params.min_burn_amount :=
    not_lt.mpr hb
  simp only [execute_burn_auction]
  rw [if_neg h']
  dsimp only
  have hbt : (0 : ℚ) ≤ revenue_usd * get_burn_rate s := le_trans hmin hb
  have ht : (0 : ℚ) ≤ revenue_usd * get_burn_rate s / s.price :=
    div_nonneg hbt hp.le
  have hsl0 : (0 : ℚ) ≤ min s.params.max_burn_slippage
      (revenue_usd * get_burn_rate s / s.price / s.circulating_supply) :=
    le_min hs0 (div_nonneg ht hc.le)
  have hsl1 : min s.params.max_burn_slippage
      (revenue_usd * get_burn_rate s / s.price / s.circulating_supply) ≤ 1 :=
    le_trans (min_le_left _ _) hs1
  have hpt : revenue_usd * get_burn_rate s / s.price * s.price
      = revenue_usd * get_burn_rate s := div_mul_cancel₀ _ (ne_of_gt hp)
  refine ⟨?_, ?_, ?_⟩
  · nlinarith [hpt]
  · nlinarith [hpt, mul_nonneg hbt (mul_nonneg hsl0 hsl0)]
  · nlinarith [ht, hsl1]

/-- Witness for C10: default parameters, reset state, revenue `1000000`;
all hypotheses hold and the usd-spent bound follows. -/
theorem c10_usd_spent_bounded_witness :
    (execute_burn_auction (reset_state {}) 1000000).2.1
        ≤ 1000000 * get_burn_rate (reset_state {})
      ∧ 0 ≤ (execute_burn_auction (reset_state {}) 1000000).1 :=
  ⟨(c10_usd_spent_bounded (reset_state {}) 1000000
      (by norm_num [reset_state]) (by norm_num [reset_state])
      (by norm_num) (by norm_num [reset_state])
      (by norm_num [reset_state]) (by norm_num [reset_state])
      (by norm_num [get_burn_rate, reset_state])).2.1,
   (c10_usd_spent_bounded (reset_state {}) 1000000
      (by norm_num [reset_state]) (by norm_num [reset_state])
      (by norm_num) (by norm_num [reset_state])
      (by norm_num [reset_state]) (by norm_num [reset_state])
      (by norm_num [get_burn_rate, reset_state])).2.2⟩

/-- Neither branch of the burn auction modifies the stored parameters. -/
theorem execute_burn_auction_params (s : EngineState) (r : ℚ) :
    (execute_burn_auction s r).2.2.params = s.params := by
  simp only [execute_burn_auction]
  split_ifs <;> rfl

/-- `step` does not modify the stored parameters. -/
theorem step_params (s : EngineState) (se ep : ℚ) :
    (step s se ep).2.params = s.params := by
  simp only [step, get_inflation_rate]
  rw [execute_burn_auction_params]

/-- The burn auction never reads the `year_5+` inflation entry: running it
from a state whose parameters differ only in that entry gives the same
tokens and USD, and a state differing only in that entry. -/
theorem execute_burn_auction_y5_fields (p : CIROParameters)
    (v : ℚ) (mo : ℕ) (cs circ pr tb tr pol sec : ℚ) (lg : ℕ)
    (cir cbr : ℚ) (hist : History) (r : ℚ) :
    execute_burn_auction
        ⟨{ p with infl_year_5_plus := v },
          mo, cs, circ, pr, tb, tr, pol, sec, lg, cir, cbr, hist⟩ r
      = ((execute_burn_auction
            ⟨p, mo, cs, circ, pr, tb, tr, pol, sec, lg, cir, cbr, hist⟩ r).1,
         (execute_burn_auction
            ⟨p, mo, cs, circ, pr, tb, tr, pol, sec, lg, cir, cbr, hist⟩ r).2.1,
         { (execute_burn_auction
              ⟨p, mo, cs, circ, pr, tb, tr, pol, sec, lg, cir, cbr, hist⟩ r).2.2 with
             params := { p with infl_year_5_plus := v } }) := by
  have hgb : get_burn_rate
      ⟨{ p with infl_year_5_plus := v },
        mo, cs, circ, pr, tb, tr, pol, sec, lg, cir, cbr, hist⟩
    = get_burn_rate
        ⟨p, mo, cs, circ, pr, tb, tr, pol, sec, lg, cir, cbr, hist⟩ := rfl
  simp only [execute_burn_auction, hgb]
  split_ifs <;> rfl

/-- `step` never reads the `year_5+` inflation entry (explicit-fields form):
the snapshot is unchanged and the final state differs only in that entry. -/
theorem step_y5_fields (p : CIROParameters) (v : ℚ) (mo : ℕ)
    (cs circ pr tb tr pol sec : ℚ) (lg : ℕ) (cir cbr : ℚ)
    (hist : History) (se ep : ℚ) :
    step ⟨{ p with infl_year_5_plus := v },
        mo, cs, circ, pr, tb, tr, pol, sec, lg, cir, cbr, hist⟩ se ep
      = ((step ⟨p, mo, cs, circ, pr, tb, tr, pol, sec, lg, cir, cbr, hist⟩ se ep).1,
         { (step ⟨p, mo, cs, circ, pr, tb, tr, pol, sec, lg, cir, cbr, hist⟩ se ep).2 with
             params := { p with infl_year_5_plus := v } }) := by
  simp only [step, get_revenue, get_inflation_rate, inflationScheduleRate,
    annual_revenue_target, get_burn_rate, check_security_guard_band,
    calculate_security_budget_needed]
  rw [execute_burn_auction_y5_fields, execute_burn_auction_params]

/-- `step` never reads the `year_5+` inflation entry: changing it commutes
with one step. -/
theorem step_engine_with_y5 (s : EngineState) (v se ep : ℚ) :
    step (engine_with_y5 s v) se ep
      = ((step s se ep).1, engine_with_y5 (step s se ep).2 v) := by
  obtain ⟨p, mo, cs, circ, pr, tb, tr, pol, sec, lg, cir, cbr, hist⟩ := s
  have hxp : (step (⟨p, mo, cs, circ, pr, tb, tr, pol, sec, lg, cir, cbr,
      hist⟩ : EngineState) se ep).2.params = p := step_params _ _ _
  show step ⟨{ p with infl_year_5_plus := v },
      mo, cs, circ, pr, tb, tr, pol, sec, lg, cir, cbr, hist⟩ se ep = _
  rw [step_y5_fields, engine_with_y5, with_infl_year_5_plus, hxp]

/-- Changing the `year_5+` inflation entry commutes with any run of steps:
the snapshots agree and the final states differ only in that entry. -/
theorem run_steps_engine_with_y5 (v : ℚ) (inputs : List (ℚ × ℚ)) :
    ∀ s : EngineState,
      run_steps (engine_with_y5 s v) inputs
        = ((run_steps s inputs).1, engine_with_y5 (run_steps s inputs).2 v) := by
  induction inputs with
  | nil => intro s; rfl
  | cons a rest ih =>
    intro s
    obtain ⟨se, ep⟩ := a
    simp only [run_steps]
    rw [step_engine_with_y5]
    dsimp only
    rw [ih]

/-- C9: the `year_5+` inflation-schedule entry is never read: two runs from
parameter sets identical except for that entry produce identical snapshot
sequences and identical final `current_inflation_rate` values. -/
theorem c9_year5plus_never_read (p : CIROParameters) (v : ℚ)
    (inputs : List (ℚ × ℚ)) :
    (run_simulation (with_infl_year_5_plus p v) inputs).1
        = (run_simulation p inputs).1
      ∧ (run_simulation (with_infl_year_5_plus p v) inputs).2.current_inflation_rate
          = (run_simulation p inputs).2.current_inflation_rate := by
  have hreset : reset_state (with_infl_year_5_plus p v)
      = engine_with_y5 (reset_state p) v := rfl
  unfold run_simulation
  rw [hreset, run_steps_engine_with_y5]
  exact ⟨rfl, rfl⟩

/-- C8 (amended): a `step()` from a state with positive supply and price
keeps the circulating supply strictly positive, given the §3 parameter
invariants (non-negative schedule and guard-band rates, slippage cap and
minimum burn) and the additional bound that the month's burn target stays
below the USD value of the post-mint supply at the current price.  The
original claim — positivity with no burn bound — is refuted by
`c8_counterexample_supply_negative` below. -/
theorem c8_amended_supply_positive (s : EngineState) (seasonal eps : ℚ)
    (hc : 0 < s.circulating_supply) (hp : 0 < s.price)
    (hy : 0 ≤ inflationScheduleRate s.params (s.month + 1))
    (hg : 0 ≤ s.params.guard_band_inflation)
    (hsl : 0 ≤ s.params.max_burn_slippage)
    (hmin : 0 ≤ s.params.min_burn_amount)
    (hb : get_revenue { s with month := s.month + 1 } seasonal
            * get_burn_rate { s with month := s.month + 1 }
          < s.price * (s.circulating_supply
              + s.circulating_supply
                  * (effective_inflation_rate s seasonal / 12))) :
    0 < (step s seasonal eps).2.circulating_supply := by
  have heff : 0 ≤ effective_inflation_rate s seasonal := by
    simp only [effective_inflation_rate, get_inflation_rate]
    split
    · exact le_trans hy (le_max_left _ _)
    · exact hy
  have key : (step s seasonal eps).2.circulating_supply
      = ({ s with
            month := s.month + 1
            current_inflation_rate := inflationScheduleRate s.params (s.month + 1)
            circulating_supply := s.circulating_supply
              + s.circulating_supply
                  * (effective_inflation_rate s seasonal / 12) } :
          EngineState).circulating_supply
        - (execute_burn_auction
            { s with
                month := s.month + 1
                current_inflation_rate := inflationScheduleRate s.params (s.month + 1)
                circulating_supply := s.circulating_supply
                  + s.circulating_supply
                      * (effective_inflation_rate s seasonal / 12) }
            (get_revenue { s with month := s.month + 1 } seasonal)).1 :=
    execute_burn_auction_circ _ _
  rw [key]
  have hlt := execute_burn_auction_tokens_lt
    { s with
        month := s.month + 1
        current_inflation_rate := inflationScheduleRate s.params (s.month + 1)
        circulating_supply := s.circulating_supply
          + s.circulating_supply * (effective_inflation_rate s seasonal / 12) }
    (get_revenue { s with month := s.month + 1 } seasonal)
    hp (by dsimp only; nlinarith [hc, heff]) hsl hmin hb
  dsimp only at hlt ⊢
  linarith [hlt]

/-- Counterexample for C8 as stated: with default parameters except a
year-1 revenue target of `$10^12` (positive, satisfying the §3 parameter
invariants) the very first step — seasonal factor `11/10`, the exact value
of `1 + 0.2*sin(2π/12)` at month 1, and a zero draw — drives the
circulating supply strictly below zero. -/
theorem c8_counterexample_supply_negative :
    0 < (reset_state { rev_year_1 := 1000000000000 }).circulating_supply
      ∧ 0 < (reset_state { rev_year_1 := 1000000000000 }).price
      ∧ (step (reset_state { rev_year_1 := 1000000000000 })
          (11/10) 0).2.circulating_supply < 0 := by
  refine ⟨by norm_num [reset_state], by norm_num [reset_state], ?_⟩
  norm_num [step, reset_state, get_revenue, annual_revenue_target,
    get_inflation_rate, inflationScheduleRate, get_burn_rate,
    check_security_guard_band, calculate_security_budget_needed,
    execute_burn_auction]

/-- Witness for C8 (amended): default parameters, reset state, month-1
seasonal factor `11/10`, zero draw; every hypothesis holds and the supply
stays positive. -/
theorem c8_amended_supply_positive_witness :
    (0 < (reset_state {}).circulating_supply
        ∧ 0 < (reset_state {}).price
        ∧ 0 ≤ inflationScheduleRate (reset_state {}).params
            ((reset_state {}).month + 1)
        ∧ 0 ≤ (reset_state {}).params.guard_band_inflation
        ∧ 0 ≤ (reset_state {}).params.max_burn_slippage
        ∧ 0 ≤ (reset_state {}).params.min_burn_amount
        ∧ get_revenue { reset_state {} with month := (reset_state {}).month + 1 }
              (11/10)
            * get_burn_rate { reset_state {} with month := (reset_state {}).month + 1 }
          < (reset_state {}).price * ((reset_state {}).circulating_supply
              + (reset_state {}).circulating_supply
                  * (effective_inflation_rate (reset_state {}) (11/10) / 12)))
      ∧ 0 < (step (reset_state {}) (11/10) 0).2.circulating_supply := by
  constructor
  · refine ⟨?_, ?_, ?_, ?_, ?_, ?_, ?_⟩ <;>
      norm_num [reset_state, inflationScheduleRate, get_revenue,
        annual_revenue_target, get_burn_rate, effective_inflation_rate,
        get_inflation_rate, check_security_guard_band,
        calculate_security_budget_needed]
  · exact c8_amended_supply_positive (reset_state {}) (11/10) 0
      (by norm_num [reset_state]) (by norm_num [reset_state])
      (by norm_num [reset_state, inflationScheduleRate])
      (by norm_num [reset_state]) (by norm_num [reset_state])
      (by norm_num [reset_state])
      (by norm_num [reset_state, inflationScheduleRate, get_revenue,
        annual_revenue_target, get_burn_rate, effective_inflation_rate,
        get_inflation_rate, check_security_guard_band,
        calculate_security_budget_needed])
